import Mathlib

/-!
Verification of the OCR HTTP service (two backends: a classical Tesseract
backend in `app/api/routes-tesseract.py` and a transformer DeepSeek backend in
`app/api/routes-deepseek.py` with its engine adapter `app/core/engine.py`).

The handlers are shallowly embedded as pure Lean functions.  Library calls the
repository does not implement (PIL `Image.open` / `verify`, `pytesseract`,
`base64.b64decode` of arbitrary text, the transformer model call, file reads)
are supplied as oracle parameters: a handler receives the outcome each such
call would have, and returns the HTTP response it would produce together with
the ordered trace of effects it performed.  Bytes are `Nat` values below 256.

The lock discipline of the transformer backend is modelled separately as a
labelled transition system over the program counters of concurrent requests,
since it is a property of interleavings, not of a single sequential run.
-/

/-! ## Base64 (models Python `base64.b64encode` / `base64.b64decode`)

The repository calls `base64.b64encode(data).decode('utf-8')` and
`base64.b64decode(s)`.  We embed the standard RFC 4648 alphabet and the
3-byte-to-4-char block code with `=` padding.  The decoder models
`base64.b64decode` on canonically padded alphabet-only input (the shape the
encoder emits); on such input Python's decoder performs exactly this block
decode. -/

/-- The 64-character standard base64 alphabet, index `i` holding the character
encoding sextet `i`. -/
def b64alphabet : List Char :=
  "ABCDEFGHIJKLMNOPQRSTUVWXYZabcdefghijklmnopqrstuvwxyz0123456789+/".toList

/-- Character encoding one sextet (defined for `s < 64`). -/
def encodeB64Char (s : Nat) : Char := b64alphabet.getD s 'A'

/-- Sextet encoded by a character, `none` when the character is outside the
alphabet. -/
def decodeB64Char (c : Char) : Option Nat := b64alphabet.findIdx? (· = c)

/-- Base64-encode a byte sequence: 3 bytes become 4 alphabet characters, a
final 1- or 2-byte block is padded with `=`. -/
def b64encodeNats : List Nat → List Char
  | [] => []
  | [a] => [encodeB64Char (a / 4), encodeB64Char (a % 4 * 16), '=', '=']
  | [a, b] => [encodeB64Char (a / 4), encodeB64Char (a % 4 * 16 + b / 16),
      encodeB64Char (b % 16 * 4), '=']
  | a :: b :: c :: rest =>
      encodeB64Char (a / 4) :: encodeB64Char (a % 4 * 16 + b / 16) ::
      encodeB64Char (b % 16 * 4 + c / 64) :: encodeB64Char (c % 64) ::
      b64encodeNats rest

/-- Base64-decode a character sequence; `none` on input that is not
canonically padded groups of alphabet characters. -/
def b64decodeNats : List Char → Option (List Nat)
  | [] => some []
  | c1 :: c2 :: c3 :: c4 :: rest =>
      match decodeB64Char c1, decodeB64Char c2 with
      | some s1, some s2 =>
          if c3 = '=' then
            if c4 = '=' ∧ rest = [] then some [s1 * 4 + s2 / 16] else none
          else
            match decodeB64Char c3 with
            | some s3 =>
                if c4 = '=' then
                  if rest = [] then
                    some [s1 * 4 + s2 / 16, s2 % 16 * 16 + s3 / 4]
                  else none
                else
                  match decodeB64Char c4, b64decodeNats rest with
                  | some s4, some bs =>
                      some ((s1 * 4 + s2 / 16) :: (s2 % 16 * 16 + s3 / 4) ::
                        (s3 % 4 * 64 + s4) :: bs)
                  | _, _ => none
            | none => none
      | _, _ => none
  | _ => none

/-- Model of `base64.b64encode(data).decode('utf-8')`: the encoded bytes as a string. -/
def b64encodeString (data : List Nat) : String := String.mk (b64encodeNats data)

/-- Model of `base64.b64decode(s)` on a canonically padded base64 string. -/
def b64decodeString (s : String) : Option (List Nat) := b64decodeNats s.data

theorem decodeB64Char_encodeB64Char : ∀ s < 64, decodeB64Char (encodeB64Char s) = some s := by
  decide

theorem encodeB64Char_ne_pad : ∀ s < 64, encodeB64Char s ≠ '=' := by
  decide

theorem b64_roundtrip_nats (bs : List Nat) (h : ∀ b ∈ bs, b < 256) :
    b64decodeNats (b64encodeNats bs) = some bs := by
  induction bs using b64encodeNats.induct with
  | case1 => rfl
  | case2 a =>
      have ha : a < 256 := h a (by simp)
      have h1 := decodeB64Char_encodeB64Char (a / 4) (by omega)
      have h2 := decodeB64Char_encodeB64Char (a % 4 * 16) (by omega)
      simp only [b64encodeNats, b64decodeNats, h1, h2, if_pos rfl, and_self,
        reduceIte, Option.some.injEq, List.cons.injEq, and_true]
      omega
  | case3 a b =>
      have ha : a < 256 := h a (by simp)
      have hb : b < 256 := h b (by simp)
      have h1 := decodeB64Char_encodeB64Char (a / 4) (by omega)
      have h2 := decodeB64Char_encodeB64Char (a % 4 * 16 + b / 16) (by omega)
      have h3 := decodeB64Char_encodeB64Char (b % 16 * 4) (by omega)
      have hne := encodeB64Char_ne_pad (b % 16 * 4) (by omega)
      simp only [b64encodeNats, b64decodeNats, h1, h2, h3, if_neg hne,
        if_pos rfl, reduceIte, Option.some.injEq, List.cons.injEq, and_true]
      omega
  | case4 a b c rest ih =>
      have ha : a < 256 := h a (by simp)
      have hb : b < 256 := h b (by simp)
      have hc : c < 256 := h c (by simp)
      have hrest : ∀ x ∈ rest, x < 256 := fun x hx => h x (by simp [hx])
      have h1 := decodeB64Char_encodeB64Char (a / 4) (by omega)
      have h2 := decodeB64Char_encodeB64Char (a % 4 * 16 + b / 16) (by omega)
      have h3 := decodeB64Char_encodeB64Char (b % 16 * 4 + c / 64) (by omega)
      have h4 := decodeB64Char_encodeB64Char (c % 64) (by omega)
      have hne3 := encodeB64Char_ne_pad (b % 16 * 4 + c / 64) (by omega)
      have hne4 := encodeB64Char_ne_pad (c % 64) (by omega)
      simp only [b64encodeNats, b64decodeNats, h1, h2, h3, h4, if_neg hne3,
        if_neg hne4, ih hrest, Option.some.injEq, List.cons.injEq, and_true]
      refine ⟨by omega, by omega, by omega⟩

theorem b64_roundtrip_string (bs : List Nat) (h : ∀ b ∈ bs, b < 256) :
    b64decodeString (b64encodeString bs) = some bs :=
  b64_roundtrip_nats bs h

/-! ## Library models: PIL, languages, effects

`app/api/schemas.py` defines the `Language` enum and the request bodies; it is
referenced by the routes but its file is not part of the sources we were
given, so the enum is modelled from the spec. -/

/-- A PIL image as far as the handlers inspect it: only its detected
`format` attribute is consulted (`image.format`, `None` when undetectable). -/
structure PilImage where
  format : Option String
deriving Repr, DecidableEq

/-- An exception escaping PIL: `UnidentifiedImageError`, or any other
exception with its message text. -/
inductive PilErr where
  | unidentified (msg : String)
  | other (msg : String)
deriving Repr, DecidableEq

namespace Schemas

/-- Modelled from the spec: the `Language` enum of `app/api/schemas.py`
(missing from the given sources).  The spec fixes a closed enumeration with a
member named `English` of value `"eng"` and a default member named `Farsi`;
Tesseract's code for Farsi is `"fas"`. -/
inductive Language where
  | English
  | Farsi
deriving Repr, DecidableEq

/-- Enum member value (`lang.value`). -/
def Language.value : Language → String
  | .English => "eng"
  | .Farsi => "fas"

/-- Enum member name (`lang.name`). -/
def Language.enumName : Language → String
  | .English => "English"
  | .Farsi => "Farsi"

/-- Iteration order of the enum (`for item in Language`). -/
def Language.members : List Language := [.English, .Farsi]

/-- Model of `Language(s)`: the member whose value is `s`, `none` when the constructor
call raises `ValueError`. -/
def Language.fromValue (s : String) : Option Language :=
  Language.members.find? (fun l => l.value = s)

end Schemas

/-- Per-request temporary filesystem resources of the transformer path. -/
inductive TmpRes where
  | stagedFile   -- `tempfile.NamedTemporaryFile(delete=True, suffix=...)` in the handler
  | scratchDir   -- `tempfile.TemporaryDirectory()` in `DeepSeekOCR.infer`
deriving Repr, DecidableEq

/-- Effects a handler performs, in program order.  `tmpCreate .stagedFile s`
records the suffix the staged temp file was created with. -/
inductive Ev where
  | b64decodeEv                  -- `base64.b64decode(...)`
  | imageOpenEv                  -- `Image.open(io.BytesIO(...))`
  | verifyEv                     -- `image.verify()`
  | pytessEv (lang : String)     -- `pytesseract.image_to_string(image, lang=...)`
  | tmpCreate (r : TmpRes) (suffix : String)
  | tmpDelete (r : TmpRes)
  | cudaEmpty                    -- `torch.cuda.empty_cache()`
  | modelInferEv                 -- `self.model.infer(...)`
  | readResultEv                 -- reading `result.mmd`
deriving Repr, DecidableEq

/-- An HTTP error `detail` payload as the handlers build it. -/
inductive OcrDetail where
  | plain (s : String)                          -- `detail="..."`
  | msgErr (message : String) (error : String)  -- `{"message": ..., "error": str(e)}`
  | langErr (invalid : String) (allowed : List String)
      -- `{"invalid language entry": ..., "allowed languages": sorted(...)}`
deriving Repr, DecidableEq

/-- The `error` field of a detail payload, when it has one. -/
def OcrDetail.errorField : OcrDetail → Option String
  | .msgErr _ e => some e
  | _ => none

/-- Response of the classical `/ocr*` endpoints: 200 with
`{language, extracted_text}`, or an `HTTPException`. -/
inductive TessResp where
  | ok (language : String) (extracted_text : String)
  | err (status : Nat) (detail : OcrDetail)
deriving Repr, DecidableEq

/-- Response of the transformer `/ocr*` endpoints: 200 with
`{extracted_text}`, or an `HTTPException`. -/
inductive DsResp where
  | ok (extracted_text : String)
  | err (status : Nat) (detail : OcrDetail)
deriving Repr, DecidableEq

/-- Response of `/file-to-base64`: 200 with `{filename, base64_string}`, or
an `HTTPException`. -/
inductive FileB64Resp where
  | ok (filename : Option String) (base64_string : String)
  | err (status : Nat) (detail : OcrDetail)
deriving Repr, DecidableEq

/-- HTTP status of a classical-endpoint response. -/
def TessResp.status : TessResp → Nat
  | .ok _ _ => 200
  | .err s _ => s

/-- HTTP status of a transformer-endpoint response. -/
def DsResp.status : DsResp → Nat
  | .ok _ => 200
  | .err s _ => s

/-- Outcomes of the external calls a request may perform.  Each field is the
result the corresponding library call returns (`Except.error` being a raised
exception with its message). -/
structure World where
  b64decodePy : String → Except String (List Nat)  -- `base64.b64decode` on arbitrary text
  imageOpen : List Nat → Except PilErr PilImage    -- `PIL.Image.open`
  verifyImage : PilImage → Except PilErr Unit      -- `image.verify()`
  pytess : PilImage → String → Except String String -- `pytesseract.image_to_string`
  modelInfer : Except String Unit                  -- `self.model.infer(...)` in the engine
  readResult : Except String String                -- reading `result.mmd` in the engine

/-- Exception text (`str(e)`) of a PIL exception. -/
def PilErr.msg : PilErr → String
  | .unidentified m => m
  | .other m => m

/-! ## Transformer engine adapter (`app/core/engine.py`, `DeepSeekOCR.infer`)

```
torch.cuda.empty_cache()
with tempfile.TemporaryDirectory() as tmpdir:
    _ = self.model.infer(..., output_path=tmpdir, ...)
    torch.cuda.empty_cache()
    with open(f"{tmpdir}/result.mmd", ...) as f:
        content = f.read()
return content
```

The `with TemporaryDirectory()` block deletes the directory on both the
normal and the exception exit; the second `empty_cache()` is ordinary
statement sequence inside the block, executed only when `model.infer`
returns.  An exception from `model.infer` or the read propagates to the
caller after the directory is removed. -/

/-- Method `DeepSeekOCR.infer`: result (or propagated exception text) and its effect
trace. -/
def DeepSeekOCR.infer (w : World) : Except String String × List Ev :=
  let inner : Except String String × List Ev :=
    match w.modelInfer with
    | .error e => (.error e, [.modelInferEv])
    | .ok _ =>
        match w.readResult with
        | .error e => (.error e, [.modelInferEv, .cudaEmpty, .readResultEv])
        | .ok content => (.ok content, [.modelInferEv, .cudaEmpty, .readResultEv])
  (inner.1,
    .cudaEmpty :: .tmpCreate .scratchDir "" :: inner.2 ++ [.tmpDelete .scratchDir])

/-- Python `str.lower()` on one character, for the ASCII range PIL format
names use. -/
def asciiLowerChar (c : Char) : Char :=
  if 'A' ≤ c ∧ c ≤ 'Z' then Char.ofNat (c.toNat + 32) else c

/-- Python `str.lower()` (ASCII). -/
def asciiLower (s : String) : String := String.mk (s.data.map asciiLowerChar)

/-- The suffix computation of `routes-deepseek.py`: a dot followed by
`image.format.lower()` when `image.format` is truthy, else the empty string
(`None` and the empty string are both falsy). -/
def suffixHint (format : Option String) : String :=
  match format with
  | some f => if f ≠ "" then "." ++ asciiLower f else ""
  | none => ""

/-! ## Classical backend handlers (`app/api/routes-tesseract.py`) -/

namespace RoutesTesseract

/-- Request body of `/ocr_base64_json` (`OCRJsonRequest` of
`app/api/schemas.py`, modelled from the spec: `{base64_string, language}`). -/
structure OCRJsonRequest where
  base64_string : String
  language : String
deriving Repr, DecidableEq

/-- Handler of `POST /file-to-base64`: encode the uploaded bytes; on a read failure the
`except Exception:` branch raises 400 with the bare string detail
`"Could not process the uploaded file."` (the exception is not bound). -/
def file_to_base64 (filename : Option String)
    (readRes : Except String (List Nat)) : FileB64Resp × List Ev :=
  match readRes with
  | .error _ => (.err 400 (.plain "Could not process the uploaded file."), [])
  | .ok file_data => (.ok filename (b64encodeString file_data), [])

/-- Handler of `POST /ocr`: read the upload, `Image.open` it, run
`pytesseract.image_to_string(image, lang=language.value)`.  The form field
`language: Language = Form(Language.Farsi)` defaults to `Language.Farsi` when
omitted. -/
def perform_ocr (w : World) (readRes : Except String (List Nat))
    (languageField : Option Schemas.Language) : TessResp × List Ev :=
  let language := languageField.getD .Farsi
  match readRes with
  | .error e =>
      (.err 400 (.msgErr "Could not process the uploaded file." e), [])
  | .ok image_data =>
      match w.imageOpen image_data with
      | .error pe =>
          (.err 400 (.msgErr "Could not process the uploaded file." pe.msg),
            [.imageOpenEv])
      | .ok image =>
          match w.pytess image language.value with
          | .error e =>
              (.err 500 (.msgErr "Error during OCR" e),
                [.imageOpenEv, .pytessEv language.value])
          | .ok text =>
              (.ok language.enumName text,
                [.imageOpenEv, .pytessEv language.value])

/-- Handler of `POST /ocr_base64`: `base64.b64decode` the form field, `Image.open`, then
OCR; the decode/open `except` branch reports
`"Could not process the base64 string."`. -/
def perform_ocr_base46 (w : World) (base64_string : String)
    (languageField : Option Schemas.Language) : TessResp × List Ev :=
  let language := languageField.getD .Farsi
  match w.b64decodePy base64_string with
  | .error e =>
      (.err 400 (.msgErr "Could not process the base64 string." e),
        [.b64decodeEv])
  | .ok image_data =>
      match w.imageOpen image_data with
      | .error pe =>
          (.err 400 (.msgErr "Could not process the base64 string." pe.msg),
            [.b64decodeEv, .imageOpenEv])
      | .ok image =>
          match w.pytess image language.value with
          | .error e =>
              (.err 500 (.msgErr "Error during OCR" e),
                [.b64decodeEv, .imageOpenEv, .pytessEv language.value])
          | .ok text =>
              (.ok language.enumName text,
                [.b64decodeEv, .imageOpenEv, .pytessEv language.value])

/-- Handler of `POST /ocr_base64_json`: first `Language(ocr_language)` is tried; a
`ValueError` raises 422 with
`{"invalid language entry": ..., "allowed languages": sorted({item.value for item in Language})}`.
Only afterwards are the base64 decode and `Image.open` attempted. -/
def perform_ocr_base64_json (w : World) (request : OCRJsonRequest) :
    TessResp × List Ev :=
  let ocr_language := request.language
  let allowed_langs := Schemas.Language.members.map Schemas.Language.value
  match Schemas.Language.fromValue ocr_language with
  | none =>
      (.err 422 (.langErr ocr_language
        (allowed_langs.mergeSort (fun a b => decide (a ≤ b)))), [])
  | some lang =>
      match w.b64decodePy request.base64_string with
      | .error e =>
          (.err 400 (.msgErr "Could not process the base64 string." e),
            [.b64decodeEv])
      | .ok image_data =>
          match w.imageOpen image_data with
          | .error pe =>
              (.err 400 (.msgErr "Could not process the base64 string." pe.msg),
                [.b64decodeEv, .imageOpenEv])
          | .ok image =>
              match w.pytess image ocr_language with
              | .error e =>
                  (.err 500 (.msgErr "Error during OCR" e),
                    [.b64decodeEv, .imageOpenEv, .pytessEv ocr_language])
              | .ok text =>
                  (.ok lang.enumName text,
                    [.b64decodeEv, .imageOpenEv, .pytessEv ocr_language])

end RoutesTesseract

/-! ## Transformer backend handlers (`app/api/routes-deepseek.py`)

Each OCR handler stages the validated bytes in a
`tempfile.NamedTemporaryFile(delete=True, suffix=suffix)` `with` block (the
file is removed on both the normal and the exception exit), and calls
`model.infer` under `async with model_lock` inside the block; an engine
exception becomes the 500 response after the staged file is removed.  The
lock's interleaving behaviour is modelled separately below; a single
request's trace is the sequential one. -/

namespace RoutesDeepseek

/-- Request body of `/ocr_base64_json` (`OCRJsonRequestD` of
`app/api/schemas.py`, modelled from the spec: `{base64_string}`). -/
structure OCRJsonRequestD where
  base64_string : String
deriving Repr, DecidableEq

/-- Handler of `POST /file-to-base64` (identical to the classical backend's). -/
def file_to_base64 (filename : Option String)
    (readRes : Except String (List Nat)) : FileB64Resp × List Ev :=
  match readRes with
  | .error _ => (.err 400 (.plain "Could not process the uploaded file."), [])
  | .ok file_data => (.ok filename (b64encodeString file_data), [])

/-- Shared tail of the three OCR handlers, from `Image.open` on: open, verify
(`UnidentifiedImageError` gives the bare-string 400, any other exception the
`{message, error}` 400), compute the suffix, stage the bytes, run the engine,
unstage, respond. -/
def ocrOnBytes (w : World) (preEvs : List Ev) (image_data : List Nat) :
    DsResp × List Ev :=
  match w.imageOpen image_data with
  | .error (.unidentified _) =>
      (.err 400 (.plain "Invalid image file"), preEvs ++ [.imageOpenEv])
  | .error (.other e) =>
      (.err 400 (.msgErr "Could not process the uploaded file." e),
        preEvs ++ [.imageOpenEv])
  | .ok image =>
      match w.verifyImage image with
      | .error (.unidentified _) =>
          (.err 400 (.plain "Invalid image file"),
            preEvs ++ [.imageOpenEv, .verifyEv])
      | .error (.other e) =>
          (.err 400 (.msgErr "Could not process the uploaded file." e),
            preEvs ++ [.imageOpenEv, .verifyEv])
      | .ok _ =>
          let suffix := suffixHint image.format
          let engineRun := DeepSeekOCR.infer w
          let trace := preEvs ++ [.imageOpenEv, .verifyEv,
            .tmpCreate .stagedFile suffix] ++ engineRun.2 ++
            [.tmpDelete .stagedFile]
          match engineRun.1 with
          | .error e => (.err 500 (.msgErr "Error during OCR" e), trace)
          | .ok text => (.ok text, trace)

/-- Handler of `POST /ocr`: read the upload, then the shared open/verify/stage/infer
tail. -/
def perform_ocr (w : World) (readRes : Except String (List Nat)) :
    DsResp × List Ev :=
  match readRes with
  | .error e =>
      (.err 400 (.msgErr "Could not process the uploaded file." e), [])
  | .ok image_data => ocrOnBytes w [] image_data

/-- Handler of `POST /ocr_base64`: `base64.b64decode` the form field, then the shared
tail. -/
def perform_ocr_base46 (w : World) (base64_string : String) :
    DsResp × List Ev :=
  match w.b64decodePy base64_string with
  | .error e =>
      (.err 400 (.msgErr "Could not process the uploaded file." e),
        [.b64decodeEv])
  | .ok image_data => ocrOnBytes w [.b64decodeEv] image_data

/-- Handler of `POST /ocr_base64_json`: decode `request.base64_string`, then the shared
tail. -/
def perform_ocr_base64_json (w : World) (request : OCRJsonRequestD) :
    DsResp × List Ev :=
  match w.b64decodePy request.base64_string with
  | .error e =>
      (.err 400 (.msgErr "Could not process the uploaded file." e),
        [.b64decodeEv])
  | .ok image_data => ocrOnBytes w [.b64decodeEv] image_data

end RoutesDeepseek

/-! ## Lock discipline of the transformer backend (`routes-deepseek.py`)

`model = DeepSeekOCR()` and `model_lock = asyncio.Lock()` are module-level
singletons.  Each of `/ocr`, `/ocr_base64` and `/ocr_base64_json` runs the
identical section

```
async with model_lock:
    res = await asyncio.to_thread(model.infer, tmp.name)
```

Concurrent requests are modelled as processes stepping through this section:
acquire the lock (only when free), start the inference, finish it (normally
or by raising), and leave the `async with` block — which releases the lock on
both exits before the handler responds or raises its `HTTPException`. -/

/-- Program counter of one request inside the lock section. -/
inductive HPC where
  | start        -- about to enter `async with model_lock`
  | locked       -- lock acquired, about to start `model.infer`
  | inferring    -- `model.infer` executing in the worker thread
  | doneOk       -- inference returned; about to leave the `async with`
  | doneErr      -- inference raised; about to leave the `async with`
  | respondedOk  -- lock released, 200 response being returned
  | respondedErr -- lock released, 500 `HTTPException` being raised
deriving Repr, DecidableEq

/-- Holds exactly at the counters at which the process owns `model_lock`. -/
def HPC.holdsLock : HPC → Bool
  | .locked | .inferring | .doneOk | .doneErr => true
  | _ => false

/-- State of the transformer service: each request's counter and the owner of
`model_lock` (`none` when free). -/
structure LockSys where
  pcs : Nat → HPC
  lock : Option Nat

/-- Pointwise update of the counters. -/
def updPC (pcs : Nat → HPC) (p : Nat) (v : HPC) : Nat → HPC :=
  fun q => if q = p then v else pcs q

/-- Initial state: every request before the lock section, lock free. -/
def initSys : LockSys := ⟨fun _ => .start, none⟩

/-- One interleaving step of the transformer service. -/
inductive LockStep : LockSys → LockSys → Prop where
  | acquire (s : LockSys) (p : Nat) :
      s.pcs p = .start → s.lock = none →
      LockStep s ⟨updPC s.pcs p .locked, some p⟩
  | beginInfer (s : LockSys) (p : Nat) :
      s.pcs p = .locked →
      LockStep s ⟨updPC s.pcs p .inferring, s.lock⟩
  | inferReturn (s : LockSys) (p : Nat) :
      s.pcs p = .inferring →
      LockStep s ⟨updPC s.pcs p .doneOk, s.lock⟩
  | inferRaise (s : LockSys) (p : Nat) :
      s.pcs p = .inferring →
      LockStep s ⟨updPC s.pcs p .doneErr, s.lock⟩
  | exitOk (s : LockSys) (p : Nat) :
      s.pcs p = .doneOk →
      LockStep s ⟨updPC s.pcs p .respondedOk, none⟩
  | exitErr (s : LockSys) (p : Nat) :
      s.pcs p = .doneErr →
      LockStep s ⟨updPC s.pcs p .respondedErr, none⟩

/-- States reachable from the initial state. -/
def ReachableSys (s : LockSys) : Prop := Relation.ReflTransGen LockStep initSys s

/-- The lock invariant: a process is inside the `async with` body exactly
when it owns `model_lock`. -/
def LockInv (s : LockSys) : Prop :=
  ∀ p, (s.pcs p).holdsLock = true ↔ s.lock = some p

theorem lockInv_init : LockInv initSys := by
  intro p
  simp [initSys, HPC.holdsLock]

theorem lockInv_step {s t : LockSys} (hinv : LockInv s) (h : LockStep s t) :
    LockInv t := by
  cases h with
  | acquire p hpc hlock =>
      intro q
      by_cases hq : q = p
      · subst hq
        simp [updPC, HPC.holdsLock]
      · simp only [updPC, if_neg hq]
        constructor
        · intro hh
          have := (hinv q).mp hh
          rw [hlock] at this
          exact absurd this (by simp)
        · intro hsome
          exact absurd (Option.some.inj hsome) (fun e => hq e.symm)
  | beginInfer p hpc =>
      intro q
      by_cases hq : q = p
      · subst hq
        have hold := (hinv q).mpr
        have : s.lock = some q → True := fun _ => trivial
        simp only [updPC, if_pos rfl, HPC.holdsLock]
        constructor
        · intro _
          exact (hinv q).mp (by rw [hpc]; rfl)
        · intro _
          rfl
      · simp only [updPC, if_neg hq]
        exact hinv q
  | inferReturn p hpc =>
      intro q
      by_cases hq : q = p
      · subst hq
        simp only [updPC, if_pos rfl, HPC.holdsLock]
        constructor
        · intro _
          exact (hinv q).mp (by rw [hpc]; rfl)
        · intro _
          rfl
      · simp only [updPC, if_neg hq]
        exact hinv q
  | inferRaise p hpc =>
      intro q
      by_cases hq : q = p
      · subst hq
        simp only [updPC, if_pos rfl, HPC.holdsLock]
        constructor
        · intro _
          exact (hinv q).mp (by rw [hpc]; rfl)
        · intro _
          rfl
      · simp only [updPC, if_neg hq]
        exact hinv q
  | exitOk p hpc =>
      intro q
      by_cases hq : q = p
      · subst hq
        simp [updPC, HPC.holdsLock]
      · simp only [updPC, if_neg hq]
        constructor
        · intro hh
          have hlq := (hinv q).mp hh
          have hlp := (hinv p).mp (by rw [hpc]; rfl)
          rw [hlq] at hlp
          exact absurd (Option.some.inj hlp) hq
        · intro hsome
          simp at hsome
  | exitErr p hpc =>
      intro q
      by_cases hq : q = p
      · subst hq
        simp [updPC, HPC.holdsLock]
      · simp only [updPC, if_neg hq]
        constructor
        · intro hh
          have hlq := (hinv q).mp hh
          have hlp := (hinv p).mp (by rw [hpc]; rfl)
          rw [hlq] at hlp
          exact absurd (Option.some.inj hlp) hq
        · intro hsome
          simp at hsome

theorem lockInv_reachable {s : LockSys} (hs : ReachableSys s) : LockInv s := by
  induction hs with
  | refl => exact lockInv_init
  | tail _ hstep ih => exact lockInv_step ih hstep

/-! ## Trace observations -/

/-- Temporary resources still on disk after a trace: created and not (yet)
deleted, in creation order. -/
def aliveAfter (evs : List Ev) : List TmpRes :=
  evs.foldl (fun acc e =>
    match e with
    | .tmpCreate r _ => acc ++ [r]
    | .tmpDelete r => acc.erase r
    | _ => acc) []

/-- Whether an effect is an OCR engine call. -/
def Ev.isEngineCall : Ev → Bool
  | .pytessEv _ => true
  | .modelInferEv => true
  | _ => false

/-- Whether a trace reaches an OCR engine. -/
def callsEngine (evs : List Ev) : Bool := evs.any Ev.isEngineCall

/-- Whether `torch.cuda.empty_cache()` occurs strictly before the `model.infer`
call in the trace. -/
def purgeBeforeInfer (evs : List Ev) : Bool :=
  (evs.takeWhile (· != Ev.modelInferEv)).contains .cudaEmpty

/-- Whether `torch.cuda.empty_cache()` occurs strictly after the `model.infer`
call in the trace. -/
def purgeAfterInfer (evs : List Ev) : Bool :=
  ((evs.dropWhile (· != Ev.modelInferEv)).drop 1).contains .cudaEmpty

/-- A request to one of the classical backend's three OCR endpoints. -/
inductive TessRequest where
  | ocr (readRes : Except String (List Nat))
      (languageField : Option Schemas.Language)
  | ocrBase64 (base64_string : String)
      (languageField : Option Schemas.Language)
  | ocrBase64Json (request : RoutesTesseract.OCRJsonRequest)

/-- Dispatch one classical-backend OCR request to its handler. -/
def RoutesTesseract.handle (w : World) : TessRequest → TessResp × List Ev
  | .ocr r lf => RoutesTesseract.perform_ocr w r lf
  | .ocrBase64 s lf => RoutesTesseract.perform_ocr_base46 w s lf
  | .ocrBase64Json req => RoutesTesseract.perform_ocr_base64_json w req

/-- Serve a sequence of classical-backend OCR requests in order.  The module
holds no mutable state (`routes-tesseract.py` defines only the constant
`app`), so a run is the per-request map of `handle`. -/
def RoutesTesseract.serveSeq (w : World) (reqs : List TessRequest) :
    List (TessResp × List Ev) :=
  reqs.map (RoutesTesseract.handle w)

/-! ## Claims -/

/-- C1: for the transformer backend, every inference executes while its
request owns `model_lock`, two requests are never mid-inference at once, and
a request that has left the lock section — having responded normally or
raised the 500 — no longer owns the lock, in every reachable state of the
service. -/
theorem transformer_inference_mutual_exclusion (s : LockSys)
    (hs : ReachableSys s) :
    (∀ p, s.pcs p = .inferring → s.lock = some p) ∧
    (∀ p q, s.pcs p = .inferring → s.pcs q = .inferring → p = q) ∧
    (∀ p, s.pcs p = .respondedOk ∨ s.pcs p = .respondedErr →
      s.lock ≠ some p) := by
  have hinv := lockInv_reachable hs
  refine ⟨?_, ?_, ?_⟩
  · intro p hp
    exact (hinv p).mp (by rw [hp]; rfl)
  · intro p q hp hq
    have h1 := (hinv p).mp (by rw [hp]; rfl)
    have h2 := (hinv q).mp (by rw [hq]; rfl)
    rw [h1] at h2
    exact Option.some.inj h2
  · intro p hp hcontra
    have := (hinv p).mpr hcontra
    rcases hp with h | h <;> rw [h] at this <;> simp [HPC.holdsLock] at this

/-- A concrete reachable state: request 0 acquired the lock and is
mid-inference. -/
def lockWitState : LockSys :=
  ⟨updPC (updPC initSys.pcs 0 .locked) 0 .inferring, some 0⟩

/-- Witness for C1 at the state in which request 0 is inferring. -/
theorem transformer_inference_mutual_exclusion_witness :
    lockWitState.lock = some 0 ∧ (0 : Nat) = 0 := by
  have hreach : ReachableSys lockWitState :=
    Relation.ReflTransGen.tail
      (Relation.ReflTransGen.tail Relation.ReflTransGen.refl
        (LockStep.acquire initSys 0 rfl rfl))
      (LockStep.beginInfer ⟨updPC initSys.pcs 0 .locked, some 0⟩ 0 rfl)
  have h := transformer_inference_mutual_exclusion lockWitState hreach
  exact ⟨h.1 0 rfl, h.2.1 0 0 rfl rfl⟩

theorem aliveAfter_ocrOnBytes_nil (w : World) (data : List Nat) :
    aliveAfter (RoutesDeepseek.ocrOnBytes w [] data).2 = [] := by
  rcases h1 : w.imageOpen data with pe | img
  · cases pe <;> simp [RoutesDeepseek.ocrOnBytes, h1, aliveAfter]
  · rcases h2 : w.verifyImage img with pe | u
    · cases pe <;> simp [RoutesDeepseek.ocrOnBytes, h1, h2, aliveAfter]
    · rcases h3 : w.modelInfer with e | u2
      · simp [RoutesDeepseek.ocrOnBytes, h1, h2, h3, DeepSeekOCR.infer,
          aliveAfter]
      · rcases h4 : w.readResult with e | c <;>
          simp [RoutesDeepseek.ocrOnBytes, h1, h2, h3, h4, DeepSeekOCR.infer,
            aliveAfter]

theorem aliveAfter_ocrOnBytes_b64 (w : World) (data : List Nat) :
    aliveAfter (RoutesDeepseek.ocrOnBytes w [.b64decodeEv] data).2 = [] := by
  rcases h1 : w.imageOpen data with pe | img
  · cases pe <;> simp [RoutesDeepseek.ocrOnBytes, h1, aliveAfter]
  · rcases h2 : w.verifyImage img with pe | u
    · cases pe <;> simp [RoutesDeepseek.ocrOnBytes, h1, h2, aliveAfter]
    · rcases h3 : w.modelInfer with e | u2
      · simp [RoutesDeepseek.ocrOnBytes, h1, h2, h3, DeepSeekOCR.infer,
          aliveAfter]
      · rcases h4 : w.readResult with e | c <;>
          simp [RoutesDeepseek.ocrOnBytes, h1, h2, h3, h4, DeepSeekOCR.infer,
            aliveAfter]

/-- C2: whatever the outcomes of the library calls, no handler of either
backend leaves a temporary resource alive in its trace: the staged temp file
and the engine's scratch directory are deleted on every exit path, and the
classical handlers create none. -/
theorem temp_resources_always_released (w : World) :
    (∀ r, aliveAfter (RoutesDeepseek.perform_ocr w r).2 = []) ∧
    (∀ s, aliveAfter (RoutesDeepseek.perform_ocr_base46 w s).2 = []) ∧
    (∀ q, aliveAfter (RoutesDeepseek.perform_ocr_base64_json w q).2 = []) ∧
    (∀ r lf, aliveAfter (RoutesTesseract.perform_ocr w r lf).2 = []) ∧
    (∀ s lf, aliveAfter (RoutesTesseract.perform_ocr_base46 w s lf).2 = []) ∧
    (∀ q, aliveAfter (RoutesTesseract.perform_ocr_base64_json w q).2 = []) ∧
    (∀ fn r, aliveAfter (RoutesTesseract.file_to_base64 fn r).2 = []) ∧
    (∀ fn r, aliveAfter (RoutesDeepseek.file_to_base64 fn r).2 = []) := by
  refine ⟨?_, ?_, ?_, ?_, ?_, ?_, ?_, ?_⟩
  · intro r
    rcases r with e | data
    · rfl
    · exact aliveAfter_ocrOnBytes_nil w data
  · intro s
    rcases h : w.b64decodePy s with e | data
    · simp [RoutesDeepseek.perform_ocr_base46, h, aliveAfter]
    · simpa [RoutesDeepseek.perform_ocr_base46, h] using
        aliveAfter_ocrOnBytes_b64 w data
  · intro q
    rcases h : w.b64decodePy q.base64_string with e | data
    · simp [RoutesDeepseek.perform_ocr_base64_json, h, aliveAfter]
    · simpa [RoutesDeepseek.perform_ocr_base64_json, h] using
        aliveAfter_ocrOnBytes_b64 w data
  · intro r lf
    rcases r with e | data
    · rfl
    · rcases h1 : w.imageOpen data with pe | img
      · simp [RoutesTesseract.perform_ocr, h1, aliveAfter]
      · rcases h2 : w.pytess img (lf.getD .Farsi).value with e | t <;>
          simp [RoutesTesseract.perform_ocr, h1, h2, aliveAfter]
  · intro s lf
    rcases h : w.b64decodePy s with e | data
    · simp [RoutesTesseract.perform_ocr_base46, h, aliveAfter]
    · rcases h1 : w.imageOpen data with pe | img
      · simp [RoutesTesseract.perform_ocr_base46, h, h1, aliveAfter]
      · rcases h2 : w.pytess img (lf.getD .Farsi).value with e | t <;>
          simp [RoutesTesseract.perform_ocr_base46, h, h1, h2, aliveAfter]
  · intro q
    rcases hl : Schemas.Language.fromValue q.language with _ | lang
    · simp [RoutesTesseract.perform_ocr_base64_json, hl, aliveAfter]
    · rcases h : w.b64decodePy q.base64_string with e | data
      · simp [RoutesTesseract.perform_ocr_base64_json, hl, h, aliveAfter]
      · rcases h1 : w.imageOpen data with pe | img
        · simp [RoutesTesseract.perform_ocr_base64_json, hl, h, h1,
            aliveAfter]
        · rcases h2 : w.pytess img q.language with e | t <;>
            simp [RoutesTesseract.perform_ocr_base64_json, hl, h, h1, h2,
              aliveAfter]
  · intro fn r
    rcases r with e | data <;> rfl
  · intro fn r
    rcases r with e | data <;> rfl

/-- A world in which every library call succeeds: decode yields two bytes,
the image opens as a PNG, both engines return text. -/
def sampleWorld : World where
  b64decodePy := fun _ => .ok [104, 105]
  imageOpen := fun _ => .ok ⟨some "PNG"⟩
  verifyImage := fun _ => .ok ()
  pytess := fun _ _ => .ok "hello"
  modelInfer := .ok ()
  readResult := .ok "# doc"

/-- A world in which `Image.open` raises `UnidentifiedImageError`. -/
def badImageWorld : World where
  b64decodePy := fun _ => .ok [0]
  imageOpen := fun _ => .error (.unidentified "cannot identify image file")
  verifyImage := fun _ => .ok ()
  pytess := fun _ _ => .ok ""
  modelInfer := .ok ()
  readResult := .ok ""

/-- A world in which the image is fine but both OCR engines raise. -/
def engineFailWorld : World where
  b64decodePy := fun _ => .ok [1]
  imageOpen := fun _ => .ok ⟨some "JPEG"⟩
  verifyImage := fun _ => .ok ()
  pytess := fun _ _ => .error "tesseract is not installed"
  modelInfer := .error "CUDA out of memory"
  readResult := .ok ""

/-- C3: a JSON request to the classical `/ocr_base64_json` whose language is
not a supported code is answered 422 with the offending value and the full
sorted allowed list, and with an empty effect trace — no base64 decode and no
image open was attempted. -/
theorem json_language_rejected_before_decode (w : World)
    (req : RoutesTesseract.OCRJsonRequest)
    (h : Schemas.Language.fromValue req.language = none) :
    RoutesTesseract.perform_ocr_base64_json w req =
      (.err 422 (.langErr req.language ["eng", "fas"]), []) := by
  have hsorted : ((Schemas.Language.members.map Schemas.Language.value).mergeSort
      (fun a b => decide (a ≤ b))) = ["eng", "fas"] := by
    simp [Schemas.Language.members, Schemas.Language.value,
      List.mergeSort, List.merge]
    decide
  simp only [RoutesTesseract.perform_ocr_base64_json, h]
  rw [hsorted]

/-- Witness for C3 at the unsupported language `"xx"`. -/
theorem json_language_rejected_before_decode_witness :
    Schemas.Language.fromValue "xx" = none ∧
    RoutesTesseract.perform_ocr_base64_json sampleWorld ⟨"aGk=", "xx"⟩ =
      (.err 422 (.langErr "xx" ["eng", "fas"]), []) :=
  ⟨by decide, json_language_rejected_before_decode sampleWorld ⟨"aGk=", "xx"⟩
    (by decide)⟩

/-- C4: a byte buffer PIL cannot open (and, for the transformer backend, one
that fails verification) is answered 400 by all six OCR endpoints, via any
input shape, and no engine call appears in any of those traces — so such a
buffer can never produce the 500 mapped from engine failures. -/
theorem nondecodable_image_never_500 (w : World) (bytes : List Nat)
    (pe : PilErr) (hopen : w.imageOpen bytes = .error pe) :
    (∀ lf, (RoutesTesseract.perform_ocr w (.ok bytes) lf).1.status = 400 ∧
      callsEngine (RoutesTesseract.perform_ocr w (.ok bytes) lf).2 = false) ∧
    (∀ s lf, w.b64decodePy s = .ok bytes →
      (RoutesTesseract.perform_ocr_base46 w s lf).1.status = 400 ∧
      callsEngine (RoutesTesseract.perform_ocr_base46 w s lf).2 = false) ∧
    (∀ q lang, Schemas.Language.fromValue q.language = some lang →
      w.b64decodePy q.base64_string = .ok bytes →
      (RoutesTesseract.perform_ocr_base64_json w q).1.status = 400 ∧
      callsEngine (RoutesTesseract.perform_ocr_base64_json w q).2 = false) ∧
    ((RoutesDeepseek.perform_ocr w (.ok bytes)).1.status = 400 ∧
      callsEngine (RoutesDeepseek.perform_ocr w (.ok bytes)).2 = false) ∧
    (∀ s, w.b64decodePy s = .ok bytes →
      (RoutesDeepseek.perform_ocr_base46 w s).1.status = 400 ∧
      callsEngine (RoutesDeepseek.perform_ocr_base46 w s).2 = false) ∧
    (∀ q, w.b64decodePy q.base64_string = .ok bytes →
      (RoutesDeepseek.perform_ocr_base64_json w q).1.status = 400 ∧
      callsEngine (RoutesDeepseek.perform_ocr_base64_json w q).2 = false) ∧
    (∀ bytes2 img2 pe2, w.imageOpen bytes2 = .ok img2 →
      w.verifyImage img2 = .error pe2 →
      (RoutesDeepseek.perform_ocr w (.ok bytes2)).1.status = 400 ∧
      callsEngine (RoutesDeepseek.perform_ocr w (.ok bytes2)).2 = false) := by
  refine ⟨?_, ?_, ?_, ?_, ?_, ?_, ?_⟩
  · intro lf
    cases pe <;>
      simp [RoutesTesseract.perform_ocr, hopen, TessResp.status, callsEngine,
        Ev.isEngineCall]
  · intro s lf hdec
    cases pe <;>
      simp [RoutesTesseract.perform_ocr_base46, hdec, hopen, TessResp.status,
        callsEngine, Ev.isEngineCall]
  · intro q lang hlang hdec
    cases pe <;>
      simp [RoutesTesseract.perform_ocr_base64_json, hlang, hdec, hopen,
        TessResp.status, callsEngine, Ev.isEngineCall]
  · cases pe <;>
      simp [RoutesDeepseek.perform_ocr, RoutesDeepseek.ocrOnBytes, hopen,
        DsResp.status, callsEngine, Ev.isEngineCall]
  · intro s hdec
    cases pe <;>
      simp [RoutesDeepseek.perform_ocr_base46, RoutesDeepseek.ocrOnBytes,
        hdec, hopen, DsResp.status, callsEngine, Ev.isEngineCall]
  · intro q hdec
    cases pe <;>
      simp [RoutesDeepseek.perform_ocr_base64_json, RoutesDeepseek.ocrOnBytes,
        hdec, hopen, DsResp.status, callsEngine, Ev.isEngineCall]
  · intro bytes2 img2 pe2 hopen2 hver2
    cases pe2 <;>
      simp [RoutesDeepseek.perform_ocr, RoutesDeepseek.ocrOnBytes, hopen2,
        hver2, DsResp.status, callsEngine, Ev.isEngineCall]

/-- Witness for C4 in a world whose `Image.open` raises
`UnidentifiedImageError` on every buffer. -/
theorem nondecodable_image_never_500_witness :
    badImageWorld.imageOpen [0] =
      .error (.unidentified "cannot identify image file") ∧
    (RoutesDeepseek.perform_ocr badImageWorld (.ok [0])).1.status = 400 ∧
    (RoutesTesseract.perform_ocr badImageWorld (.ok [0]) none).1.status = 400 ∧
    callsEngine (RoutesTesseract.perform_ocr badImageWorld (.ok [0]) none).2 =
      false ∧
    (RoutesDeepseek.perform_ocr_base46 badImageWorld "AA==").1.status = 400 := by
  have h := nondecodable_image_never_500 badImageWorld [0]
    (.unidentified "cannot identify image file") rfl
  exact ⟨rfl, h.2.2.2.1.1, (h.1 none).1, (h.1 none).2, (h.2.2.2.2.1 "AA==" rfl).1⟩

/-- C5 counterexample: `/file-to-base64`'s failure handler (`except
Exception:` without binding the exception) answers with the bare string
detail `"Could not process the uploaded file."`; the original exception text
`"disk read failed"` appears in no `error` field — the payload has none. -/
theorem file_to_base64_error_has_no_error_field :
    (RoutesTesseract.file_to_base64 (some "a.txt") (.error "disk read failed")).1 =
      .err 400 (.plain "Could not process the uploaded file.") ∧
    ((RoutesTesseract.file_to_base64 (some "a.txt")
      (.error "disk read failed")).1 ≠
      .err 400 (.msgErr "Could not process the uploaded file."
        "disk read failed")) ∧
    OcrDetail.errorField (.plain "Could not process the uploaded file.") =
      none :=
  ⟨rfl, by decide, rfl⟩

/-- C5 amended: the failure branches written `except Exception as e` — the
decode-step 400s of both backends and the engine 500s of both backends —
carry the original exception text in the payload's `error` field; the 400 of
`/file-to-base64` (on either backend) and the `UnidentifiedImageError` 400
carry only a fixed message string with no `error` field. -/
theorem wrapped_exception_text_preserved (w : World) :
    (∀ e lf, (RoutesTesseract.perform_ocr w (.error e) lf).1 =
      .err 400 (.msgErr "Could not process the uploaded file." e)) ∧
    (∀ s e lf, w.b64decodePy s = .error e →
      (RoutesTesseract.perform_ocr_base46 w s lf).1 =
        .err 400 (.msgErr "Could not process the base64 string." e)) ∧
    (∀ bytes img lf e, w.imageOpen bytes = .ok img →
      w.pytess img ((lf.getD .Farsi).value) = .error e →
      (RoutesTesseract.perform_ocr w (.ok bytes) lf).1 =
        .err 500 (.msgErr "Error during OCR" e)) ∧
    (∀ e, (RoutesDeepseek.perform_ocr w (.error e)).1 =
      .err 400 (.msgErr "Could not process the uploaded file." e)) ∧
    (∀ bytes e, w.imageOpen bytes = .error (.other e) →
      (RoutesDeepseek.perform_ocr w (.ok bytes)).1 =
        .err 400 (.msgErr "Could not process the uploaded file." e)) ∧
    (∀ bytes img e, w.imageOpen bytes = .ok img →
      w.verifyImage img = .ok () → w.modelInfer = .error e →
      (RoutesDeepseek.perform_ocr w (.ok bytes)).1 =
        .err 500 (.msgErr "Error during OCR" e)) ∧
    (∀ fn e, (RoutesTesseract.file_to_base64 fn (.error e)).1 =
      .err 400 (.plain "Could not process the uploaded file.")) ∧
    (∀ fn e, (RoutesDeepseek.file_to_base64 fn (.error e)).1 =
      .err 400 (.plain "Could not process the uploaded file.")) ∧
    (∀ bytes e, w.imageOpen bytes = .error (.unidentified e) →
      (RoutesDeepseek.perform_ocr w (.ok bytes)).1 =
        .err 400 (.plain "Invalid image file")) := by
  refine ⟨?_, ?_, ?_, ?_, ?_, ?_, ?_, ?_, ?_⟩
  · intro e lf
    rfl
  · intro s e lf hdec
    simp [RoutesTesseract.perform_ocr_base46, hdec]
  · intro bytes img lf e hopen hocr
    simp [RoutesTesseract.perform_ocr, hopen, hocr]
  · intro e
    rfl
  · intro bytes e hopen
    simp [RoutesDeepseek.perform_ocr, RoutesDeepseek.ocrOnBytes, hopen]
  · intro bytes img e hopen hver hinf
    simp [RoutesDeepseek.perform_ocr, RoutesDeepseek.ocrOnBytes, hopen, hver,
      DeepSeekOCR.infer, hinf]
  · intro fn e
    rfl
  · intro fn e
    rfl
  · intro bytes e hopen
    simp [RoutesDeepseek.perform_ocr, RoutesDeepseek.ocrOnBytes, hopen]

/-- Witness for the amended C5 in a world whose OCR engines raise. -/
theorem wrapped_exception_text_preserved_witness :
    engineFailWorld.imageOpen [1] = .ok ⟨some "JPEG"⟩ ∧
    (RoutesTesseract.perform_ocr engineFailWorld (.ok [1]) none).1 =
      .err 500 (.msgErr "Error during OCR" "tesseract is not installed") ∧
    (RoutesDeepseek.perform_ocr engineFailWorld (.ok [1])).1 =
      .err 500 (.msgErr "Error during OCR" "CUDA out of memory") ∧
    (RoutesTesseract.file_to_base64 (some "x") (.error "boom")).1 =
      .err 400 (.plain "Could not process the uploaded file.") := by
  have h := wrapped_exception_text_preserved engineFailWorld
  exact ⟨rfl, h.2.2.1 [1] ⟨some "JPEG"⟩ none "tesseract is not installed" rfl rfl,
    h.2.2.2.2.2.1 [1] ⟨some "JPEG"⟩ "CUDA out of memory" rfl rfl rfl,
    h.2.2.2.2.2.2.1 (some "x") "boom"⟩

/-- C6 counterexample: in a world where `model.infer` raises, the engine
adapter's trace contains no `empty_cache` after the `model.infer` event —
the post-inference purge at line 45 of `engine.py` is skipped because no
`try/finally` protects it. -/
theorem no_purge_after_raised_inference :
    engineFailWorld.modelInfer = .error "CUDA out of memory" ∧
    purgeAfterInfer (DeepSeekOCR.infer engineFailWorld).2 = false := by
  refine ⟨rfl, ?_⟩
  decide

/-- C6 amended: every invocation of the engine adapter purges cached
accelerator memory before the `model.infer` call; the purge after the call
happens exactly on the invocations where `model.infer` returns normally. -/
theorem cuda_purged_before_and_after_successful_inference (w : World) :
    purgeBeforeInfer (DeepSeekOCR.infer w).2 = true ∧
    (w.modelInfer = .ok () → purgeAfterInfer (DeepSeekOCR.infer w).2 = true) := by
  constructor
  · rcases h : w.modelInfer with e | u
    · simp [DeepSeekOCR.infer, h, purgeBeforeInfer]
    · rcases h4 : w.readResult with e | c <;>
        simp [DeepSeekOCR.infer, h, h4, purgeBeforeInfer]
  · intro h
    rcases h4 : w.readResult with e | c <;>
      simp [DeepSeekOCR.infer, h, h4, purgeAfterInfer]

/-- Witness for the amended C6 in a world whose inference succeeds. -/
theorem cuda_purged_before_and_after_successful_inference_witness :
    sampleWorld.modelInfer = .ok () ∧
    purgeBeforeInfer (DeepSeekOCR.infer sampleWorld).2 = true ∧
    purgeAfterInfer (DeepSeekOCR.infer sampleWorld).2 = true := by
  have h := cuda_purged_before_and_after_successful_inference sampleWorld
  exact ⟨rfl, h.1, h.2 rfl⟩

/-- C7: the classical backend's module holds no mutable state (only the
constant `app`), so a request's response does not depend on the requests
served before it: the last response of any history extended with request `r`
is the same whatever the history — in particular two identical requests get
identical responses, hence identical extracted text. -/
theorem classical_backend_stateless (w : World)
    (pre1 pre2 : List TessRequest) (r : TessRequest) :
    (RoutesTesseract.serveSeq w (pre1 ++ [r])).getLast? =
      (RoutesTesseract.serveSeq w (pre2 ++ [r])).getLast? := by
  simp [RoutesTesseract.serveSeq, List.getLast?_concat]

/-- C8 counterexample: for a detected format `"PNG"` the derived hint is
`".png"`, a dot followed by the lower-cased name — not the lower-cased name
itself as the claim states. -/
theorem suffix_hint_not_bare_format :
    suffixHint (some "PNG") = ".png" ∧ asciiLower "PNG" = "png" ∧
    suffixHint (some "PNG") ≠ asciiLower "PNG" := by
  refine ⟨by decide, by decide, by decide⟩

/-- C8 amended: the staged temp file of a verified image is created with
suffix `suffixHint image.format`, which is `"." ++ lower(format)` for a
non-empty detected format and `""` when the format is undetectable (`None`
or empty). -/
theorem suffix_hint_dot_lowercase (w : World) (bytes : List Nat)
    (img : PilImage) (hopen : w.imageOpen bytes = .ok img)
    (hver : w.verifyImage img = .ok ()) :
    Ev.tmpCreate .stagedFile (suffixHint img.format) ∈
      (RoutesDeepseek.perform_ocr w (.ok bytes)).2 ∧
    (∀ f, img.format = some f → f ≠ "" →
      suffixHint img.format = "." ++ asciiLower f) ∧
    (img.format = none → suffixHint img.format = "") ∧
    (img.format = some "" → suffixHint img.format = "") := by
  refine ⟨?_, ?_, ?_, ?_⟩
  · rcases h3 : w.modelInfer with e | u
    · simp [RoutesDeepseek.perform_ocr, RoutesDeepseek.ocrOnBytes, hopen,
        hver, DeepSeekOCR.infer, h3]
    · rcases h4 : w.readResult with e | c <;>
        simp [RoutesDeepseek.perform_ocr, RoutesDeepseek.ocrOnBytes, hopen,
          hver, DeepSeekOCR.infer, h3, h4]
  · intro f hf hne
    simp [suffixHint, hf, hne]
  · intro hf
    simp [suffixHint, hf]
  · intro hf
    simp [suffixHint, hf]

/-- Witness for the amended C8 at a PNG image. -/
theorem suffix_hint_dot_lowercase_witness :
    sampleWorld.imageOpen [104, 105] = .ok ⟨some "PNG"⟩ ∧
    Ev.tmpCreate .stagedFile (suffixHint (some "PNG")) ∈
      (RoutesDeepseek.perform_ocr sampleWorld (.ok [104, 105])).2 ∧
    suffixHint (some "PNG") = "." ++ asciiLower "PNG" := by
  have h := suffix_hint_dot_lowercase sampleWorld [104, 105] ⟨some "PNG"⟩
    rfl rfl
  exact ⟨rfl, h.1, h.2.1 "PNG" rfl (by decide)⟩

/-- C9: a successfully read upload to `/file-to-base64` on either backend is
answered with the declared filename unchanged and the base64 encoding of the
uploaded bytes, and decoding that string restores exactly the uploaded
bytes. -/
theorem file_to_base64_roundtrip (filename : Option String)
    (data : List Nat) (h : ∀ b ∈ data, b < 256) :
    (RoutesTesseract.file_to_base64 filename (.ok data)).1 =
      .ok filename (b64encodeString data) ∧
    (RoutesDeepseek.file_to_base64 filename (.ok data)).1 =
      .ok filename (b64encodeString data) ∧
    b64decodeString (b64encodeString data) = some data :=
  ⟨rfl, rfl, b64_roundtrip_string data h⟩

/-- Witness for C9 on the three bytes of `"hi!"`. -/
theorem file_to_base64_roundtrip_witness :
    (∀ b ∈ [104, 105, 33], b < 256) ∧
    (RoutesTesseract.file_to_base64 (some "hi.txt") (.ok [104, 105, 33])).1 =
      .ok (some "hi.txt") (b64encodeString [104, 105, 33]) ∧
    b64decodeString (b64encodeString [104, 105, 33]) =
      some [104, 105, 33] := by
  have h := file_to_base64_roundtrip (some "hi.txt") [104, 105, 33]
    (by decide)
  exact ⟨by decide, h.1, h.2.2⟩

/-- C10: a form-based classical request that omits the language field runs
OCR with the Farsi code `"fas"` (the `Form(Language.Farsi)` default) and the
success response's language field is `"Farsi"`, on both `/ocr` and
`/ocr_base64`. -/
theorem default_language_is_farsi (w : World) (bytes : List Nat)
    (img : PilImage) (text : String)
    (hopen : w.imageOpen bytes = .ok img)
    (hocr : w.pytess img "fas" = .ok text) :
    (RoutesTesseract.perform_ocr w (.ok bytes) none).1 = .ok "Farsi" text ∧
    Ev.pytessEv "fas" ∈ (RoutesTesseract.perform_ocr w (.ok bytes) none).2 ∧
    (∀ s, w.b64decodePy s = .ok bytes →
      (RoutesTesseract.perform_ocr_base46 w s none).1 = .ok "Farsi" text ∧
      Ev.pytessEv "fas" ∈
        (RoutesTesseract.perform_ocr_base46 w s none).2) := by
  refine ⟨?_, ?_, ?_⟩
  · simp [RoutesTesseract.perform_ocr, hopen, Schemas.Language.value, hocr,
      Schemas.Language.enumName]
  · simp [RoutesTesseract.perform_ocr, hopen, Schemas.Language.value, hocr]
  · intro s hdec
    constructor
    · simp [RoutesTesseract.perform_ocr_base46, hdec, hopen,
        Schemas.Language.value, hocr, Schemas.Language.enumName]
    · simp [RoutesTesseract.perform_ocr_base46, hdec, hopen,
        Schemas.Language.value, hocr]

/-- Witness for C10 in the all-success world. -/
theorem default_language_is_farsi_witness :
    sampleWorld.imageOpen [104, 105] = .ok ⟨some "PNG"⟩ ∧
    sampleWorld.pytess ⟨some "PNG"⟩ "fas" = .ok "hello" ∧
    (RoutesTesseract.perform_ocr sampleWorld (.ok [104, 105]) none).1 =
      .ok "Farsi" "hello" ∧
    Ev.pytessEv "fas" ∈
      (RoutesTesseract.perform_ocr_base46 sampleWorld "aGk=" none).2 := by
  have h := default_language_is_farsi sampleWorld [104, 105] ⟨some "PNG"⟩
    "hello" rfl rfl
  exact ⟨rfl, rfl, h.1, (h.2.2 "aGk=" rfl).2⟩
